import Mathlib

/-!
Shallow embedding of the saltyrtc-client server-handshake state machine
(`src/protocol/mod.rs`) together with its collaborator data types.

The repository slice contains only `src/protocol/mod.rs`; the modules it
imports (`boxes`, `messages`, `nonce`, `keystore`, `protocol::types`,
`protocol::state`) are declared but their code is not present, so these are
modelled from the specification, faithful to its words.  The functions
`Signaling.next_state` and `Signaling.handle_message` are translated
directly from the source.
-/

/-- Modelled from the spec: `keystore.rs` is not in the sources.  A public key
is opaque key bytes; the state machine never inspects them. -/
abbrev PublicKey := List Nat

/-- Modelled from the spec: `keystore.rs` is not in the sources.  The KeyStore
owns the local permanent keypair and exposes its public key; the seal/open
capability is not used by this slice of the state machine. -/
structure KeyStore where
  publicKey : PublicKey
  privateKey : List Nat
deriving DecidableEq, Repr

/-- Rust `KeyStore::public_key()`: accessor for the local permanent public key. -/
def KeyStore.public_key (k : KeyStore) : PublicKey :=
  k.publicKey

/-- Modelled from the spec: `nonce.rs` is not in the sources.  Source (sender)
address byte of a nonce. -/
structure Sender where
  id : Nat
deriving DecidableEq, Repr

/-- Modelled from the spec: `nonce.rs` is not in the sources.  Destination
(receiver) address byte of a nonce. -/
structure Receiver where
  id : Nat
deriving DecidableEq, Repr

/-- Rust `Sender::new`. -/
def Sender.new (n : Nat) : Sender := ⟨n⟩

/-- Rust `Receiver::new`. -/
def Receiver.new (n : Nat) : Receiver := ⟨n⟩

/-- Modelled from the spec: `nonce.rs` is not in the sources.  A nonce is
`cookie(16) | source(1) | destination(1) | overflow(2) | sequence(4)`; pure
data with construction and equality only. -/
structure Nonce where
  cookie : List Nat
  source : Sender
  destination : Receiver
  overflow : Nat
  sequence : Nat
deriving DecidableEq, Repr

/-- Rust `Nonce::new(cookie, source, destination, overflow, sequence)`. -/
def Nonce.new (cookie : List Nat) (source : Sender) (destination : Receiver)
    (overflow : Nat) (sequence : Nat) : Nonce :=
  ⟨cookie, source, destination, overflow, sequence⟩

/-- Modelled from the spec: `messages.rs` is not in the sources.  The
`server-hello` message carries the server's public key. -/
structure ServerHello where
  key : PublicKey
deriving DecidableEq, Repr

/-- Modelled from the spec: `messages.rs` is not in the sources.  The
`client-hello` message carries the client's permanent public key. -/
structure ClientHello where
  key : PublicKey
deriving DecidableEq, Repr

/-- Modelled from the spec: `messages.rs` is not in the sources.  The
`client-auth` message carries the echoed cookie, the supported subprotocol
list, a ping interval and optionally the server key being confirmed.  Field
names follow the construction site in `protocol/mod.rs`. -/
structure ClientAuth where
  your_cookie : List Nat
  subprotocols : List String
  ping_interval : Nat
  your_key : Option PublicKey
deriving DecidableEq, Repr

/-- Modelled from the spec: `messages.rs` is not in the sources.  The closed
set of typed handshake messages exchanged in this slice. -/
inductive Message where
  | serverHello (msg : ServerHello)
  | clientHello (msg : ClientHello)
  | clientAuth (msg : ClientAuth)
deriving DecidableEq, Repr

/-- Rust `ClientHello::new(key)`. -/
def ClientHello.new (key : PublicKey) : ClientHello := ⟨key⟩

/-- Rust `ClientHello::into_message()`. -/
def ClientHello.into_message (m : ClientHello) : Message :=
  Message.clientHello m

/-- Rust `ClientAuth::into_message()`. -/
def ClientAuth.into_message (m : ClientAuth) : Message :=
  Message.clientAuth m

/-- Modelled from the spec: `messages.rs` is not in the sources.  Each message
has a wire-type tag; `Message::get_type` returns it (the tag of a
client-hello is the literal `client-hello`). -/
def Message.get_type : Message → String
  | .serverHello _ => "server-hello"
  | .clientHello _ => "client-hello"
  | .clientAuth _ => "client-auth"

/-- Modelled from the spec: `boxes.rs` is not in the sources.  An `OpenBox`
is the decoded envelope: a typed message together with its nonce. -/
structure OpenBox where
  message : Message
  nonce : Nonce
deriving DecidableEq, Repr

/-- Rust `OpenBox::new(message, nonce)`. -/
def OpenBox.new (message : Message) (nonce : Nonce) : OpenBox :=
  ⟨message, nonce⟩

/-- Modelled from the spec: `boxes.rs` is not in the sources.  A `ByteBox` is
the wire-level envelope.  Its byte payload either is a well-formed encoding
of some `OpenBox` or is malformed, in which case decoding fails with an
error whose display text we carry. -/
inductive ByteBox where
  | wellFormed (obox : OpenBox)
  | malformed (err : String)
deriving DecidableEq, Repr

/-- Modelled from the spec: `ByteBox::decode()` parses the payload into a
typed message plus nonce, failing with a decode error on malformed input.
The error is carried as its display text (`format("{}", e)`). -/
def ByteBox.decode : ByteBox → Except String OpenBox
  | .wellFormed obox => Except.ok obox
  | .malformed e => Except.error e

/-- Modelled from the spec: `OpenBox::encode()` serialises the message with
its nonce into a wire envelope; round-trip law `decode (encode b) = ok b`. -/
def OpenBox.encode (b : OpenBox) : ByteBox :=
  ByteBox.wellFormed b

/-- Modelled from the spec: `protocol/types.rs` is not in the sources.  A
tagged effect description returned by the state machine, never executed by
it: record the server key, send reply bytes, or no effect. -/
inductive HandleAction where
  | setServerKey (key : PublicKey)
  | reply (bbox : ByteBox)
  | none
deriving DecidableEq, Repr

/-- Modelled from the spec: `protocol/types.rs` is not in the sources.  The
role the local party plays in the eventual peer-to-peer session. -/
inductive Role where
  | initiator
  | responder
deriving DecidableEq, Repr

/-- Modelled from the spec: `protocol/state.rs` is not in the sources.  The
server-handshake states of this slice: `New`, `ClientInfoSent` and the
absorbing `Failure(reason)`. -/
inductive ServerHandshakeState where
  | new
  | clientInfoSent
  | failure (msg : String)
deriving DecidableEq, Repr

/-- The `{:?}` (Debug) rendering of a state, as used in the
`Invalid event transition` failure reason. -/
def ServerHandshakeState.debugFmt : ServerHandshakeState → String
  | .new => "New"
  | .clientInfoSent => "ClientInfoSent"
  | .failure msg => "Failure(\"" ++ msg ++ "\")"

/-- Modelled from the spec: `protocol/state.rs` is not in the sources.  A
state transition result: the next state plus the actions to execute. -/
structure StateTransition where
  state : ServerHandshakeState
  actions : List HandleAction
deriving DecidableEq, Repr

/-- Rust `StateTransition::new(state, actions)`. -/
def StateTransition.new (state : ServerHandshakeState)
    (actions : List HandleAction) : StateTransition :=
  ⟨state, actions⟩

/-- Rust `Into<StateTransition>` for a bare state: empty action list. -/
def ServerHandshakeState.intoTransition (s : ServerHandshakeState) : StateTransition :=
  ⟨s, []⟩

/-- Rust `ServerContext`: per-server peer context (from `protocol/mod.rs`). -/
structure ServerContext where
  handshake_state : ServerHandshakeState
  permanent_key : Option PublicKey
  session_key : Option PublicKey
deriving DecidableEq, Repr

/-- Rust `ServerContext::new()`. -/
def ServerContext.new : ServerContext :=
  ⟨ServerHandshakeState.new, Option.none, Option.none⟩

/-- Rust `ServerContext::address()`: the server's reserved address. -/
def ServerContext.address (_ctx : ServerContext) : Receiver :=
  Receiver.new 0

/-- Rust `Signaling`: all signaling related data (from `protocol/mod.rs`). -/
structure Signaling where
  role : Role
  server : ServerContext
  permanent_key : KeyStore
deriving DecidableEq, Repr

/-- Rust `Signaling::new(role, permanent_key)`. -/
def Signaling.new (role : Role) (permanent_key : KeyStore) : Signaling :=
  ⟨role, ServerContext.new, permanent_key⟩

/-- Rust `Signaling::next_state`: determine the next state and actions from the
incoming message bytes and the current (read-only) state.  Translated
directly from `protocol/mod.rs` lines 51-130. -/
def Signaling.next_state (self : Signaling) (bbox : ByteBox) : StateTransition :=
  match self.server.handshake_state with
  | ServerHandshakeState.failure msg =>
      (ServerHandshakeState.failure msg).intoTransition
  | ServerHandshakeState.new =>
      match bbox.decode with
      | Except.error e => (ServerHandshakeState.failure e).intoTransition
      | Except.ok obox =>
          match self.server.handshake_state, obox.message with
          | ServerHandshakeState.new, Message.serverHello msg =>
              let actions1 := [HandleAction.setServerKey msg.key]
              let key := self.permanent_key.public_key
              let client_hello := (ClientHello.new key).into_message
              let client_hello_nonce :=
                Nonce.new [0,0,0,0,0,0,0,0,0,0,0,0,0,0,0,0]
                  (Sender.new 0) (Receiver.new 0) 0 123
              let reply1 := OpenBox.new client_hello client_hello_nonce
              let actions2 := actions1 ++ [HandleAction.reply reply1.encode]
              let client_auth :=
                (ClientAuth.mk [0,0,0,0,0,0,0,0,0,0,0,0,0,0,0,0]
                  ["vX.saltyrtc.org"] 0 Option.none).into_message
              let client_auth_nonce :=
                Nonce.new [0,0,0,0,0,0,0,0,0,0,0,0,0,0,0,0]
                  (Sender.new 0) (Receiver.new 0) 0 124
              let reply2 := OpenBox.new client_auth client_auth_nonce
              let actions3 := actions2 ++ [HandleAction.reply reply2.encode]
              StateTransition.mk ServerHandshakeState.clientInfoSent actions3
          | ServerHandshakeState.failure msg, _ =>
              (ServerHandshakeState.failure msg).intoTransition
          | s, m =>
              (ServerHandshakeState.failure
                ("Invalid event transition: " ++ s.debugFmt ++ " <- " ++ m.get_type)).intoTransition
  | _ => (ServerHandshakeState.failure "Not yet implemented").intoTransition

/-- Rust `Signaling::handle_message`: compute the transition, store the next state
into the server context, return the actions.  The `&mut self` mutation is
embedded as returning the updated `Signaling` value. -/
def Signaling.handle_message (self : Signaling) (bbox : ByteBox) :
    Signaling × List HandleAction :=
  let transition := self.next_state bbox
  ({ self with server := { self.server with handshake_state := transition.state } },
   transition.actions)

/-! ### Concrete test fixtures for witnesses -/

/-- A concrete local keypair. -/
def testKeyStore : KeyStore :=
  ⟨[1, 2, 3, 4], [9, 9, 9]⟩

/-- A concrete freshly-created signaling value (state `New`). -/
def testSig : Signaling :=
  Signaling.new Role.initiator testKeyStore

/-- A concrete server public key. -/
def testServerKey : PublicKey :=
  [7, 7, 7]

/-- A concrete nonce (the one used by the repository's own tests). -/
def testNonce : Nonce :=
  Nonce.new [1, 2, 3, 4, 5, 6, 7, 8, 9, 10, 11, 12, 13, 14, 15, 16]
    (Sender.new 17) (Receiver.new 18) 258 50595078

/-- A concrete well-formed wire envelope carrying a `server-hello`. -/
def testServerHelloBox : ByteBox :=
  (OpenBox.new (Message.serverHello ⟨testServerKey⟩) testNonce).encode

/-- A concrete well-formed wire envelope carrying a `client-hello`. -/
def testClientHelloBox : ByteBox :=
  (OpenBox.new (Message.clientHello ⟨[5, 5]⟩) testNonce).encode

/-- A concrete signaling value stuck in the failure state. -/
def testFailedSig : Signaling :=
  { testSig with server := { testSig.server with
      handshake_state := ServerHandshakeState.failure "boom" } }

/-- A concrete signaling value in state `ClientInfoSent`. -/
def testSentSig : Signaling :=
  { testSig with server := { testSig.server with
      handshake_state := ServerHandshakeState.clientInfoSent } }

/-- A concrete malformed wire envelope. -/
def testMalformedBox : ByteBox :=
  ByteBox.malformed "parse error"

/-- A second concrete signaling value: same handshake state and public key
as testSig, but different role and private key material. -/
def testSig2 : Signaling :=
  { testSig with role := Role.responder, permanent_key := ⟨[1, 2, 3, 4], [8]⟩ }

/-- Substring containment on strings, via the underlying character lists. -/
def strContains (r sub : String) : Prop :=
  ∃ a b : List Char, r.data = a ++ sub.data ++ b

/-! ### Theorems -/

/-- C1: from state New, a successfully decoded ServerHello carrying server key
K yields next state ClientInfoSent and exactly the three actions
SetServerKey(K), Reply(b1), Reply(b2) in this order, where b1 encodes a
ClientHello containing the local permanent public key and b2 encodes a
ClientAuth message. -/
theorem next_state_new_serverHello (sig : Signaling) (bbox : ByteBox)
    (K : PublicKey) (n : Nonce)
    (hs : sig.server.handshake_state = ServerHandshakeState.new)
    (hd : bbox.decode = Except.ok (OpenBox.mk (Message.serverHello ⟨K⟩) n)) :
    ∃ b1 b2 : ByteBox,
      sig.next_state bbox = StateTransition.mk ServerHandshakeState.clientInfoSent
        [HandleAction.setServerKey K, HandleAction.reply b1, HandleAction.reply b2] ∧
      (∃ n1 : Nonce, b1.decode =
        Except.ok (OpenBox.mk (Message.clientHello ⟨sig.permanent_key.public_key⟩) n1)) ∧
      (∃ ca : ClientAuth, ∃ n2 : Nonce, b2.decode =
        Except.ok (OpenBox.mk (Message.clientAuth ca) n2)) := by
  refine ⟨(OpenBox.new ((ClientHello.new sig.permanent_key.public_key).into_message)
        (Nonce.new [0,0,0,0,0,0,0,0,0,0,0,0,0,0,0,0] (Sender.new 0) (Receiver.new 0) 0 123)).encode,
      (OpenBox.new ((ClientAuth.mk [0,0,0,0,0,0,0,0,0,0,0,0,0,0,0,0]
          ["vX.saltyrtc.org"] 0 Option.none).into_message)
        (Nonce.new [0,0,0,0,0,0,0,0,0,0,0,0,0,0,0,0] (Sender.new 0) (Receiver.new 0) 0 124)).encode,
      ?_, ⟨_, rfl⟩, ⟨_, _, rfl⟩⟩
  simp [Signaling.next_state, hs, hd]

/-- C1 witness: the happy path at a concrete signaling value and envelope. -/
theorem next_state_new_serverHello_witness :
    ∃ b1 b2 : ByteBox,
      testSig.next_state testServerHelloBox = StateTransition.mk ServerHandshakeState.clientInfoSent
        [HandleAction.setServerKey testServerKey, HandleAction.reply b1, HandleAction.reply b2] ∧
      (∃ n1 : Nonce, b1.decode =
        Except.ok (OpenBox.mk (Message.clientHello ⟨testSig.permanent_key.public_key⟩) n1)) ∧
      (∃ ca : ClientAuth, ∃ n2 : Nonce, b2.decode =
        Except.ok (OpenBox.mk (Message.clientAuth ca) n2)) :=
  next_state_new_serverHello testSig testServerHelloBox testServerKey testNonce rfl rfl

/-- C2: the Failure state is absorbing: from Failure(r), any input yields
Failure(r) with the same reason and an empty action list; the result does not
depend on the input, so no decode is attempted and no new reason appears. -/
theorem next_state_failure_absorbing (sig : Signaling) (r : String) (bbox : ByteBox)
    (hs : sig.server.handshake_state = ServerHandshakeState.failure r) :
    sig.next_state bbox = StateTransition.mk (ServerHandshakeState.failure r) [] := by
  simp [Signaling.next_state, hs, ServerHandshakeState.intoTransition]

/-- C2 witness: absorption at a concrete failed signaling value, fed a
well-formed envelope. -/
theorem next_state_failure_absorbing_witness :
    testFailedSig.next_state testServerHelloBox =
      StateTransition.mk (ServerHandshakeState.failure "boom") [] :=
  next_state_failure_absorbing testFailedSig "boom" testServerHelloBox rfl

/-- C3: handle_message stores exactly the state computed by the full
transition and returns the transition's actions; every other field of the
signaling value (role, permanent KeyStore, server permanent_key and
session_key) is unchanged. -/
theorem handle_message_frame (sig : Signaling) (bbox : ByteBox) :
    (sig.handle_message bbox).1.role = sig.role ∧
    (sig.handle_message bbox).1.permanent_key = sig.permanent_key ∧
    (sig.handle_message bbox).1.server.permanent_key = sig.server.permanent_key ∧
    (sig.handle_message bbox).1.server.session_key = sig.server.session_key ∧
    (sig.handle_message bbox).1.server.handshake_state = (sig.next_state bbox).state ∧
    (sig.handle_message bbox).2 = (sig.next_state bbox).actions := by
  simp [Signaling.handle_message]

/-- C4: in state New, a decode failure with error e yields
Failure(format(e)) with empty actions (in this embedding the error is carried
as its display text, so the reason is e itself). -/
theorem next_state_new_decode_error (sig : Signaling) (bbox : ByteBox) (e : String)
    (hs : sig.server.handshake_state = ServerHandshakeState.new)
    (hd : bbox.decode = Except.error e) :
    sig.next_state bbox = StateTransition.mk (ServerHandshakeState.failure e) [] := by
  simp [Signaling.next_state, hs, hd, ServerHandshakeState.intoTransition]

/-- C4 witness: decode failure at a concrete malformed envelope. -/
theorem next_state_new_decode_error_witness :
    testSig.next_state testMalformedBox =
      StateTransition.mk (ServerHandshakeState.failure "parse error") [] :=
  next_state_new_decode_error testSig testMalformedBox "parse error" rfl rfl

/-- C5: in state New, a successfully decoded message that is not a
ServerHello yields Failure with empty actions, and the reason contains both
the literal state name New and the message's wire-type tag. -/
theorem next_state_new_invalid_message (sig : Signaling) (bbox : ByteBox)
    (m : Message) (n : Nonce)
    (hs : sig.server.handshake_state = ServerHandshakeState.new)
    (hd : bbox.decode = Except.ok (OpenBox.mk m n))
    (hm : ∀ sh : ServerHello, m ≠ Message.serverHello sh) :
    ∃ r : String,
      sig.next_state bbox = StateTransition.mk (ServerHandshakeState.failure r) [] ∧
      strContains r "New" ∧ strContains r m.get_type := by
  cases m with
  | serverHello sh => exact absurd rfl (hm sh)
  | clientHello ch =>
      refine ⟨"Invalid event transition: New <- client-hello", ?_, ?_, ?_⟩
      · simp [Signaling.next_state, hs, hd, ServerHandshakeState.intoTransition,
          ServerHandshakeState.debugFmt, Message.get_type]
      · exact ⟨"Invalid event transition: ".data, " <- client-hello".data, by decide⟩
      · refine ⟨"Invalid event transition: New <- ".data, [], ?_⟩
        show ("Invalid event transition: New <- client-hello").data =
          "Invalid event transition: New <- ".data ++ "client-hello".data ++ []
        decide
  | clientAuth ca =>
      refine ⟨"Invalid event transition: New <- client-auth", ?_, ?_, ?_⟩
      · simp [Signaling.next_state, hs, hd, ServerHandshakeState.intoTransition,
          ServerHandshakeState.debugFmt, Message.get_type]
      · exact ⟨"Invalid event transition: ".data, " <- client-auth".data, by decide⟩
      · refine ⟨"Invalid event transition: New <- ".data, [], ?_⟩
        show ("Invalid event transition: New <- client-auth").data =
          "Invalid event transition: New <- ".data ++ "client-auth".data ++ []
        decide

/-- C5 witness: a client-hello arriving in state New. -/
theorem next_state_new_invalid_message_witness :
    ∃ r : String,
      testSig.next_state testClientHelloBox =
        StateTransition.mk (ServerHandshakeState.failure r) [] ∧
      strContains r "New" ∧
      strContains r (Message.clientHello ⟨[5, 5]⟩).get_type :=
  next_state_new_invalid_message testSig testClientHelloBox
    (Message.clientHello ⟨[5, 5]⟩) testNonce rfl rfl
    (fun _ h => Message.noConfusion h)

/-- C6: from any state that is neither New nor Failure, any input yields
Failure("Not yet implemented") with empty actions; the result does not
depend on the input, so no decode is attempted. -/
theorem next_state_unimplemented (sig : Signaling) (bbox : ByteBox)
    (h1 : sig.server.handshake_state ≠ ServerHandshakeState.new)
    (h2 : ∀ r : String, sig.server.handshake_state ≠ ServerHandshakeState.failure r) :
    sig.next_state bbox =
      StateTransition.mk (ServerHandshakeState.failure "Not yet implemented") [] := by
  rcases hst : sig.server.handshake_state with _ | _ | r
  · exact absurd hst h1
  · simp [Signaling.next_state, hst, ServerHandshakeState.intoTransition]
  · exact absurd hst (h2 r)

/-- C6 witness: state ClientInfoSent fed a well-formed envelope. -/
theorem next_state_unimplemented_witness :
    testSentSig.next_state testServerHelloBox =
      StateTransition.mk (ServerHandshakeState.failure "Not yet implemented") [] :=
  next_state_unimplemented testSentSig testServerHelloBox
    (by decide) (fun r h => by simp [testSentSig, testSig, Signaling.new] at h)

/-- C7 (amended): the ClientAuth reply emitted by the (New, ServerHello)
transition carries a cookie hard-coded to sixteen zero bytes (a placeholder,
not the echoed server cookie), the fixed subprotocol list
["vX.saltyrtc.org"], ping interval 0, and no confirmed server key. -/
theorem next_state_clientAuth_reply_fields (sig : Signaling) (bbox : ByteBox)
    (sh : ServerHello) (n : Nonce)
    (hs : sig.server.handshake_state = ServerHandshakeState.new)
    (hd : bbox.decode = Except.ok (OpenBox.mk (Message.serverHello sh) n)) :
    ∃ b2 : ByteBox,
      (sig.next_state bbox).actions.getLast? = some (HandleAction.reply b2) ∧
      b2.decode = Except.ok (OpenBox.mk
        (Message.clientAuth (ClientAuth.mk [0,0,0,0,0,0,0,0,0,0,0,0,0,0,0,0]
          ["vX.saltyrtc.org"] 0 Option.none))
        (Nonce.new [0,0,0,0,0,0,0,0,0,0,0,0,0,0,0,0]
          (Sender.new 0) (Receiver.new 0) 0 124)) := by
  refine ⟨(OpenBox.new ((ClientAuth.mk [0,0,0,0,0,0,0,0,0,0,0,0,0,0,0,0]
      ["vX.saltyrtc.org"] 0 Option.none).into_message)
      (Nonce.new [0,0,0,0,0,0,0,0,0,0,0,0,0,0,0,0]
        (Sender.new 0) (Receiver.new 0) 0 124)).encode, ?_, rfl⟩
  simp [Signaling.next_state, hs, hd]

/-- C7 witness: the ClientAuth reply fields at a concrete input. -/
theorem next_state_clientAuth_reply_fields_witness :
    ∃ b2 : ByteBox,
      (testSig.next_state testServerHelloBox).actions.getLast? =
        some (HandleAction.reply b2) ∧
      b2.decode = Except.ok (OpenBox.mk
        (Message.clientAuth (ClientAuth.mk [0,0,0,0,0,0,0,0,0,0,0,0,0,0,0,0]
          ["vX.saltyrtc.org"] 0 Option.none))
        (Nonce.new [0,0,0,0,0,0,0,0,0,0,0,0,0,0,0,0]
          (Sender.new 0) (Receiver.new 0) 0 124)) :=
  next_state_clientAuth_reply_fields testSig testServerHelloBox
    ⟨testServerKey⟩ testNonce rfl rfl

/-- C7 counterexample: at a concrete input whose server-established cookie
(the cookie on the incoming ServerHello's nonce) is nonzero, the emitted
ClientAuth does not echo it: its your_cookie field is all zeros. -/
theorem clientAuth_cookie_not_echoed :
    ¬ (∀ (b2 : ByteBox) (ca : ClientAuth) (n2 : Nonce),
        (testSig.next_state testServerHelloBox).actions.getLast? =
          some (HandleAction.reply b2) →
        b2.decode = Except.ok (OpenBox.mk (Message.clientAuth ca) n2) →
        ca.your_cookie = testNonce.cookie) := by
  intro h
  have hc := h ((OpenBox.new ((ClientAuth.mk [0,0,0,0,0,0,0,0,0,0,0,0,0,0,0,0]
      ["vX.saltyrtc.org"] 0 Option.none).into_message)
      (Nonce.new [0,0,0,0,0,0,0,0,0,0,0,0,0,0,0,0]
        (Sender.new 0) (Receiver.new 0) 0 124)).encode)
    (ClientAuth.mk [0,0,0,0,0,0,0,0,0,0,0,0,0,0,0,0] ["vX.saltyrtc.org"] 0 Option.none)
    (Nonce.new [0,0,0,0,0,0,0,0,0,0,0,0,0,0,0,0] (Sender.new 0) (Receiver.new 0) 0 124)
    (by decide) rfl
  exact absurd hc (by decide)

/-- C8: the ClientHello reply's nonce uses sender 0, receiver 0, overflow 0
and a fixed sequence value (123), and the ClientAuth reply's nonce uses the
same sender, receiver and overflow with sequence one greater. -/
theorem next_state_reply_nonces (sig : Signaling) (bbox : ByteBox)
    (sh : ServerHello) (n : Nonce)
    (hs : sig.server.handshake_state = ServerHandshakeState.new)
    (hd : bbox.decode = Except.ok (OpenBox.mk (Message.serverHello sh) n)) :
    ∃ (b1 b2 : ByteBox) (ob1 ob2 : OpenBox),
      (sig.next_state bbox).actions =
        [HandleAction.setServerKey sh.key, HandleAction.reply b1, HandleAction.reply b2] ∧
      b1.decode = Except.ok ob1 ∧ b2.decode = Except.ok ob2 ∧
      ob1.nonce.source = Sender.new 0 ∧ ob1.nonce.destination = Receiver.new 0 ∧
      ob1.nonce.overflow = 0 ∧ ob1.nonce.sequence = 123 ∧
      ob2.nonce.source = ob1.nonce.source ∧
      ob2.nonce.destination = ob1.nonce.destination ∧
      ob2.nonce.overflow = ob1.nonce.overflow ∧
      ob2.nonce.sequence = ob1.nonce.sequence + 1 := by
  refine ⟨(OpenBox.new ((ClientHello.new sig.permanent_key.public_key).into_message)
        (Nonce.new [0,0,0,0,0,0,0,0,0,0,0,0,0,0,0,0] (Sender.new 0) (Receiver.new 0) 0 123)).encode,
      (OpenBox.new ((ClientAuth.mk [0,0,0,0,0,0,0,0,0,0,0,0,0,0,0,0]
          ["vX.saltyrtc.org"] 0 Option.none).into_message)
        (Nonce.new [0,0,0,0,0,0,0,0,0,0,0,0,0,0,0,0] (Sender.new 0) (Receiver.new 0) 0 124)).encode,
      _, _, ?_, rfl, rfl, rfl, rfl, rfl, rfl, rfl, rfl, rfl, rfl⟩
  simp [Signaling.next_state, hs, hd]

/-- C8 witness: the reply nonces at a concrete input. -/
theorem next_state_reply_nonces_witness :
    ∃ (b1 b2 : ByteBox) (ob1 ob2 : OpenBox),
      (testSig.next_state testServerHelloBox).actions =
        [HandleAction.setServerKey testServerKey,
         HandleAction.reply b1, HandleAction.reply b2] ∧
      b1.decode = Except.ok ob1 ∧ b2.decode = Except.ok ob2 ∧
      ob1.nonce.source = Sender.new 0 ∧ ob1.nonce.destination = Receiver.new 0 ∧
      ob1.nonce.overflow = 0 ∧ ob1.nonce.sequence = 123 ∧
      ob2.nonce.source = ob1.nonce.source ∧
      ob2.nonce.destination = ob1.nonce.destination ∧
      ob2.nonce.overflow = ob1.nonce.overflow ∧
      ob2.nonce.sequence = ob1.nonce.sequence + 1 :=
  next_state_reply_nonces testSig testServerHelloBox ⟨testServerKey⟩ testNonce rfl rfl

/-- C9: the transition is a pure function of the current handshake state,
the local public key and the input: two signaling values agreeing on those
produce identical transitions on every input, so repeated calls with the
same arguments yield the same result and no hidden state advances. -/
theorem next_state_deterministic (s1 s2 : Signaling) (bbox : ByteBox)
    (hstate : s1.server.handshake_state = s2.server.handshake_state)
    (hkey : s1.permanent_key.public_key = s2.permanent_key.public_key) :
    s1.next_state bbox = s2.next_state bbox := by
  rcases s1 with ⟨r1, ⟨st1, pk1, sk1⟩, k1⟩
  rcases s2 with ⟨r2, ⟨st2, pk2, sk2⟩, k2⟩
  simp only at hstate
  subst hstate
  cases st1 with
  | new =>
      cases hb : bbox.decode with
      | error e => simp [Signaling.next_state, hb]
      | ok obox =>
          cases obox with
          | mk m n =>
              cases m <;> simp [Signaling.next_state, hb, hkey]
  | clientInfoSent => simp [Signaling.next_state]
  | failure r => simp [Signaling.next_state]

/-- C9 witness: two signaling values differing only in role and private key
produce the same transition on a concrete input. -/
theorem next_state_deterministic_witness :
    testSig.next_state testServerHelloBox = testSig2.next_state testServerHelloBox :=
  next_state_deterministic testSig testSig2 testServerHelloBox rfl rfl

/-- C10: handle_message never returns the None action: the action list is
either empty or exactly [SetServerKey k, Reply b1, Reply b2]. -/
theorem handle_message_actions_shape (sig : Signaling) (bbox : ByteBox) :
    HandleAction.none ∉ (sig.handle_message bbox).2 ∧
    ((sig.handle_message bbox).2 = [] ∨
      ∃ (k : PublicKey) (b1 b2 : ByteBox),
        (sig.handle_message bbox).2 =
          [HandleAction.setServerKey k, HandleAction.reply b1, HandleAction.reply b2]) := by
  have hsnd : (sig.handle_message bbox).2 = (sig.next_state bbox).actions := rfl
  rw [hsnd]
  rcases hst : sig.server.handshake_state with _ | _ | r
  · cases hb : bbox.decode with
    | error e =>
        simp [Signaling.next_state, hst, hb, ServerHandshakeState.intoTransition]
    | ok obox =>
        cases obox with
        | mk m n =>
            cases m with
            | serverHello sh =>
                constructor
                · simp [Signaling.next_state, hst, hb]
                · right
                  exact ⟨sh.key,
                    (OpenBox.new ((ClientHello.new sig.permanent_key.public_key).into_message)
                      (Nonce.new [0,0,0,0,0,0,0,0,0,0,0,0,0,0,0,0]
                        (Sender.new 0) (Receiver.new 0) 0 123)).encode,
                    (OpenBox.new ((ClientAuth.mk [0,0,0,0,0,0,0,0,0,0,0,0,0,0,0,0]
                        ["vX.saltyrtc.org"] 0 Option.none).into_message)
                      (Nonce.new [0,0,0,0,0,0,0,0,0,0,0,0,0,0,0,0]
                        (Sender.new 0) (Receiver.new 0) 0 124)).encode,
                    by simp [Signaling.next_state, hst, hb]⟩
            | clientHello ch =>
                simp [Signaling.next_state, hst, hb, ServerHandshakeState.intoTransition]
            | clientAuth ca =>
                simp [Signaling.next_state, hst, hb, ServerHandshakeState.intoTransition]
  · simp [Signaling.next_state, hst, ServerHandshakeState.intoTransition]
  · simp [Signaling.next_state, hst, ServerHandshakeState.intoTransition]
